import Mathlib

/-!
Verification development for the callback-routing and session state-machine
layer of a poll-to-spreadsheet synchronisation bot.

The embedding below translates, function by function, the two source files
of the repository:

- the keyboard utilities (CallbackPrefix, yesNoKeyboard, columnConfirmationKeyboard,
  newColumnChoiceKeyboard, columnSelectionKeyboard, playerCountConfirmationKeyboard,
  overrideConfirmationKeyboard, pollIntentKeyboard, pollOptionKeyboard);
- the callback handlers (registerCallbackHandlers: the YES_NO, COLUMN and
  POLL_OPTION callback routes, handlePlayerCountYes, handleOverrideChoice).

Strings of the host language are modelled by Lean String (all routing
prefixes are ASCII, so character positions and UTF-16 positions coincide);
the string primitives slice and startsWith used by the source are modelled
over the character list of the string.  The mutable per-user session object
is modelled as an explicit record threaded through the handlers, and each
call to an external collaborator (message edits, sheet writes, workflow
continuations living in modules outside this layer) is recorded as an
element of an effect trace that the handler returns next to the updated
session.
-/

namespace PollSheets

/-- Model of the slice(n) string primitive used by the handlers to strip a
token prefix: drop the first n characters. -/
def strDrop (s : String) (n : Nat) : String := String.mk (s.data.drop n)

/-- Model of the startsWith string primitive used by the COLUMN handler. -/
def strStartsWith (s p : String) : Bool := p.data.isPrefixOf s.data

/-- Callback data prefixes for routing (constant CallbackPrefix of the
keyboard utilities). -/
def CallbackPrefix.YES_NO : String := "yn:"

/-- Callback data prefix for column choice callbacks. -/
def CallbackPrefix.COLUMN : String := "col:"

/-- Callback data prefix for poll intent callbacks. -/
def CallbackPrefix.POLL_INTENT : String := "pi:"

/-- Callback data prefix for poll option callbacks. -/
def CallbackPrefix.POLL_OPTION : String := "po:"

/-- Token encoding: every keyboard builds its callback data by prepending
the literal routing prefix to the payload. -/
def encodeToken (p payload : String) : String := p ++ payload

/-- Token decoding, as every handler performs it on the raw callback data:
slice off exactly the length of the routing prefix and hand the remainder
to prefix-specific parsing. -/
def decodeToken (p raw : String) : String := strDrop raw p.length

/-- Workflow states a session can be in. -/
inductive SessionState where
  | idle : SessionState
  | awaiting_column_choice : SessionState
  | awaiting_date_name : SessionState
  | awaiting_player_count : SessionState
  | awaiting_override_choice : SessionState
  | awaiting_poll_option_selection : SessionState
deriving Repr, DecidableEq

/-- A candidate column match: column label and the date found in its header. -/
structure ColumnMatch where
  column : String
  date : String
deriving Repr, DecidableEq

/-- An entry recording that a nickname already holds a value in the target
column. -/
structure ExistingValueEntry where
  nickname : String
  existingValue : String
deriving Repr, DecidableEq

/-- The per-user session record.  Fields follow the session shape the
handlers read and write; absent (undefined) fields are modelled with
Option.  The column field, read by handleOverrideChoice next to
targetColumn, is part of the session type of the repository. -/
structure Session where
  state : SessionState
  targetColumn : Option String
  isNewColumn : Option Bool
  column : Option String
  columnMatches : Option (List ColumnMatch)
  playerCount : Option Nat
  nicknameRowsEntries : Option (List (String × Nat))
  existingValuesEntries : Option (List ExistingValueEntry)
  usernames : Option (List String)
  pollId : Option String
  pollQuestion : Option String
deriving Repr, DecidableEq

/-- The initial, empty session: idle state, every data field absent. -/
def initialSession : Session :=
  { state := SessionState.idle
    targetColumn := none
    isNewColumn := none
    column := none
    columnMatches := none
    playerCount := none
    nicknameRowsEntries := none
    existingValuesEntries := none
    usernames := none
    pollId := none
    pollQuestion := none }

/-- Modelled from the spec: resetSession (module session, not included under
src/) restores the session to its initial empty form. -/
def resetSession (_s : Session) : Session := initialSession

/-- Poll data as fetched from the poll-data source: question, ordered
options, and a mapping from option index to the set of voter identities
(modelled as an association list with unique keys; each voter set keeps
its insertion order). -/
structure PollData where
  question : String
  options : List String
  votes : List (Nat × List String)
deriving Repr, DecidableEq

/-- Lookup of votes.get(i), defaulted to the empty set as in the handler
(votes.get(optionIndex) or else a fresh empty set). -/
def votesGet (votes : List (Nat × List String)) (i : Nat) : List String :=
  match votes.find? (fun kv => kv.1 == i) with
  | some kv => kv.2
  | none => []

/-- One external side effect performed by a handler, in order of occurrence.
Collaborator calls that live outside this layer (message edits, sheet
writes, workflow continuations) appear as trace elements. -/
inductive Effect where
  | answerCallbackQuery : Effect
  | editMessageText : String → Effect
  | replyError : String → Effect
  | apiError : String → Effect
  | writeColumnMetadata : String → Nat → Effect
  | checkOverridesAndWrite : List (String × Nat) → Effect
  | writeZeros : List (String × Nat) → String → Bool → List String → Effect
  | proceedWithMetadataCollection : Effect
  | startColumnDetectionFlow : Effect
  | pollDataError : Effect
deriving Repr, DecidableEq

/-- Modelled from the spec: replyErrorAndReset (module bot-helpers, not
included under src/) reports the error text to the user and fully resets
the session. -/
def replyErrorAndReset (s : Session) (msg : String) : Session × List Effect :=
  (resetSession s, [Effect.replyError msg])

/-- Modelled from the spec: the constant ERR_SESSION_DATA_LOST (module
constants, not included under src/) is the session-integrity error text
instructing the user to restart; handleOverrideChoice inlines the same
text literally. -/
def ERR_SESSION_DATA_LOST : String := "❌ Error: session data lost. Start over with /update"

/-- Truthiness of an optional string under the host language: undefined and
the empty string are falsy, every other string truthy. -/
def jsStrTruthy : Option String → Bool
  | none => false
  | some s => !s.isEmpty

/-- The or-else operator on optional strings: the left operand unless it is
falsy, in which case the right operand. -/
def jsOrStr (a b : Option String) : Option String :=
  if jsStrTruthy a then a else b

/-- Insertion into a host-language Map: an existing key keeps its position
and takes the new value, a new key is appended. -/
def mapInsert (m : List (String × Nat)) (k : String) (v : Nat) : List (String × Nat) :=
  if m.any (fun kv => kv.1 == k) then
    m.map (fun kv => if kv.1 == k then (k, v) else kv)
  else
    m ++ [(k, v)]

/-- Building a host-language Map from an entry list (new Map(entries)):
first-insertion key order, last value wins. -/
def mapFromEntries (entries : List (String × Nat)) : List (String × Nat) :=
  entries.foldl (fun m kv => mapInsert m kv.1 kv.2) []

/-- The skipped-nicknames computation of handleOverrideChoice: with
overwrite false and existingValuesEntries present, the nicknames of those
entries; otherwise the empty list. -/
def computeSkippedNicknames (overwrite : Bool) (entries : Option (List ExistingValueEntry)) : List String :=
  match overwrite, entries with
  | false, some evs => evs.map ExistingValueEntry.nickname
  | _, _ => []

/-- handleOverrideChoice: resolve the column to use (session.column or else
session.targetColumn); on a falsy column or an absent nickname-row mapping,
report the session-data-lost error and reset; otherwise compute the skipped
nicknames, announce the decision, and hand the write set to
writeZerosAndRespond (recorded as a trace element), reporting an api error
when that call throws (flag apiOk false). -/
def handleOverrideChoice (session : Session) (overwrite : Bool) (apiOk : Bool) : Session × List Effect :=
  let columnToUse := jsOrStr session.column session.targetColumn
  if jsStrTruthy columnToUse = false ∨ session.nicknameRowsEntries = none then
    replyErrorAndReset session "❌ Error: session data lost. Start over with /update"
  else
    let nicknameRows := mapFromEntries (session.nicknameRowsEntries.getD [])
    let skippedNicknames := computeSkippedNicknames overwrite session.existingValuesEntries
    let msgEffect := Effect.editMessageText
      (if overwrite then "✅ Will overwrite existing values" else "⏭️ Will skip existing values")
    let writeEffect := Effect.writeZeros nicknameRows (columnToUse.getD "") overwrite skippedNicknames
    (session,
      if apiOk then [msgEffect, writeEffect]
      else [msgEffect, writeEffect, Effect.apiError "updating sheet"])

/-- handlePlayerCountYes: on a falsy target column or an absent nickname-row
mapping, report ERR_SESSION_DATA_LOST and reset; otherwise take the
recognized count from the nickname-row map size, store it as playerCount,
announce it, then write the column metadata and continue with the override
check (both recorded as trace elements), reporting an api error when the
sheet call throws (flag apiOk false). -/
def handlePlayerCountYes (session : Session) (apiOk : Bool) : Session × List Effect :=
  if jsStrTruthy session.targetColumn = false ∨ session.nicknameRowsEntries = none then
    replyErrorAndReset session ERR_SESSION_DATA_LOST
  else
    let nicknameRows := mapFromEntries (session.nicknameRowsEntries.getD [])
    let recognizedCount := nicknameRows.length
    let s1 := { session with playerCount := some recognizedCount }
    (s1,
      if apiOk then
        [Effect.editMessageText ("✅ Player count: " ++ toString recognizedCount),
         Effect.writeColumnMetadata (session.targetColumn.getD "") recognizedCount,
         Effect.checkOverridesAndWrite nicknameRows]
      else
        [Effect.editMessageText ("✅ Player count: " ++ toString recognizedCount),
         Effect.apiError "writing player count or checking overrides"])

/-- The YES_NO callback route: strip the yn: prefix, acknowledge the button
press, then dispatch on the four recognized sub-actions; any other payload
falls through with no further effect. -/
def ynCallbackHandler (session : Session) (rawData : String) (apiOk : Bool) : Session × List Effect :=
  let data := decodeToken CallbackPrefix.YES_NO rawData
  let result :=
    if data = "playercount:yes" then
      handlePlayerCountYes session apiOk
    else if data = "playercount:no" then
      ({ session with state := SessionState.awaiting_player_count },
       [Effect.editMessageText "How many players attended the match?"])
    else if data = "override:yes" then
      handleOverrideChoice session true apiOk
    else if data = "override:no" then
      handleOverrideChoice session false apiOk
    else
      (session, [])
  (result.1, Effect.answerCallbackQuery :: result.2)

/-- The COLUMN callback route: strip the col: prefix, acknowledge the button
press, then check in order for the use:, new:, create:, cancel and select:
sub-actions; any other payload falls through with no further effect. -/
def columnCallbackHandler (session : Session) (rawData : String) : Session × List Effect :=
  let data := decodeToken CallbackPrefix.COLUMN rawData
  let result :=
    if strStartsWith data "use:" then
      let column := strDrop data 4
      ({ session with targetColumn := some column, isNewColumn := some false },
       [Effect.editMessageText ("✅ Using column " ++ column),
        Effect.proceedWithMetadataCollection])
    else if strStartsWith data "new:" then
      let column := strDrop data 4
      ({ session with targetColumn := some column, isNewColumn := some true,
                      state := SessionState.awaiting_date_name },
       [Effect.editMessageText ("📅 Please provide the date name for column " ++ column ++ " (row 1):")])
    else if strStartsWith data "create:" then
      let column := strDrop data 7
      ({ session with targetColumn := some column, isNewColumn := some true,
                      state := SessionState.awaiting_date_name },
       [Effect.editMessageText ("📅 Please provide the date name for column " ++ column ++ " (row 1):")])
    else if data = "cancel" then
      (resetSession session,
       [Effect.editMessageText "✅ Operation cancelled. Use /update to start again."])
    else if strStartsWith data "select:" then
      let column := strDrop data 7
      ({ session with targetColumn := some column, isNewColumn := some false,
                      columnMatches := none },
       [Effect.editMessageText ("✅ Selected column " ++ column),
        Effect.proceedWithMetadataCollection])
    else
      (session, [])
  (result.1, Effect.answerCallbackQuery :: result.2)

/-- Model of parseInt(data, 10) of the host language: skip leading
whitespace, accept one optional sign, read the maximal run of decimal
digits; no digits means not-a-number (none), and any trailing characters
after the digit run are ignored. -/
def parseIntJS (s : String) : Option Int :=
  let trimmed := s.data.dropWhile (fun c => c == ' ' || c == '\t' || c == '\n' || c == '\r')
  let signed : Bool × List Char :=
    match trimmed with
    | '-' :: cs => (true, cs)
    | '+' :: cs => (false, cs)
    | cs => (false, cs)
  let digits := signed.2.takeWhile Char.isDigit
  if digits.isEmpty then none
  else
    let n : Nat := digits.foldl (fun acc c => acc * 10 + (c.toNat - '0'.toNat)) 0
    some (if signed.1 then -(n : Int) else (n : Int))

/-- The POLL_OPTION callback route: strip the po: prefix, parse the payload
as a base-10 integer, acknowledge the button press, reject a non-numeric
payload, fetch the poll data (its outcome is passed in as fetchResult;
a failed fetch was already reported by the helper and ends the handler),
reject an out-of-range index naming the 1-based valid range, reject an
option with no voters by resetting the session, and otherwise store the
voters as the attendee list, clear the poll identifiers and start the
column detection flow. -/
def pollOptionCallbackHandler (session : Session) (rawData : String)
    (fetchResult : Option PollData) : Session × List Effect :=
  let data := decodeToken CallbackPrefix.POLL_OPTION rawData
  match parseIntJS data with
  | none => (session, [Effect.answerCallbackQuery, Effect.editMessageText "❌ Invalid option."])
  | some optionIndex =>
    match fetchResult with
    | none => (session, [Effect.answerCallbackQuery, Effect.pollDataError])
    | some pollData =>
      if optionIndex < 0 ∨ (pollData.options.length : Int) ≤ optionIndex then
        (session,
         [Effect.answerCallbackQuery,
          Effect.editMessageText
            ("❌ Invalid option number. Please choose between 1 and "
              ++ toString pollData.options.length ++ ".")])
      else
        let usernames := votesGet pollData.votes optionIndex.toNat
        if usernames.length = 0 then
          let r := replyErrorAndReset session "❌ No voters found for this option."
          (r.1, Effect.answerCallbackQuery :: r.2)
        else
          ({ session with usernames := some usernames, pollId := none, pollQuestion := none },
           [Effect.answerCallbackQuery,
            Effect.editMessageText
              ("✅ Selected option: \"" ++ pollData.options.getD optionIndex.toNat "" ++ "\""
                ++ "\n" ++ "👥 Attending players: " ++ String.intercalate " " usernames),
            Effect.startColumnDetectionFlow])

/-- An inline-keyboard button: visible label and callback data.  Row breaks
of the keyboard builders are a purely visual concern and are not part of
the model; a keyboard is its button list in insertion order. -/
structure Button where
  label : String
  callbackData : String
deriving Repr, DecidableEq

/-- newColumnChoiceKeyboard: create the proposed first column, or cancel. -/
def newColumnChoiceKeyboard (column : String) : List Button :=
  [{ label := "✅ Create " ++ column,
     callbackData := CallbackPrefix.COLUMN ++ "create:" ++ column },
   { label := "❌ Cancel",
     callbackData := CallbackPrefix.COLUMN ++ "cancel" }]

/-- columnConfirmationKeyboard: use the detected column, or create the next
column. -/
def columnConfirmationKeyboard (currentColumn nextColumn : String) : List Button :=
  [{ label := "✅ Use " ++ currentColumn,
     callbackData := CallbackPrefix.COLUMN ++ "use:" ++ currentColumn },
   { label := "➕ Create " ++ nextColumn,
     callbackData := CallbackPrefix.COLUMN ++ "new:" ++ nextColumn }]

/-- columnSelectionKeyboard: one numbered button per candidate match, in the
order supplied.  The binder is named ms because the source name of the
parameter is a reserved word here. -/
def columnSelectionKeyboard (ms : List ColumnMatch) : List Button :=
  (List.enum ms).map (fun im =>
    { label := toString (im.1 + 1) ++ ". " ++ im.2.column ++ ": " ++ im.2.date,
      callbackData := CallbackPrefix.COLUMN ++ "select:" ++ im.2.column })

/-- Projection of the first writeZeros trace element, carrying the skipped
nicknames handed to writeZerosAndRespond. -/
def skippedOf (effects : List Effect) : Option (List String) :=
  effects.findSome? (fun e =>
    match e with
    | Effect.writeZeros _ _ _ skipped => some skipped
    | _ => none)

/-! Concrete fixtures used by witnesses and counterexamples. -/

/-- A two-option poll where only the first option has voters. -/
def pollDataAB : PollData :=
  { question := "q", options := ["Team A", "Team B"], votes := [(0, ["alice", "bob"])] }

/-- A one-option poll with no votes at all. -/
def pollDataA : PollData :=
  { question := "q", options := ["Team A"], votes := [] }

/-- A session holding column (but not targetColumn) and a nickname-row
mapping, as left by a flow that stored the column under the column field. -/
def sessionColumnOnly : Session :=
  { initialSession with column := some "B", nicknameRowsEntries := some [("alice", 2)] }

/-- A session still holding candidate matches from a pending disambiguation. -/
def sessionWithMatches : Session :=
  { initialSession with state := SessionState.awaiting_column_choice,
                        columnMatches := some [{ column := "B", date := "1.1" }] }

/-- A session ready for the override decision, with one conflicting nickname. -/
def sessionOverrideReady : Session :=
  { initialSession with state := SessionState.awaiting_override_choice,
                        targetColumn := some "C",
                        nicknameRowsEntries := some [("alice", 2), ("bob", 3)],
                        existingValuesEntries := some [{ nickname := "alice", existingValue := "1" }] }

/-! Helper lemmas about the string primitives. -/

/-- Dropping the length of the first summand of an append returns the
second summand. -/
theorem strDrop_append (p s : String) : strDrop (p ++ s) p.length = s := by
  show String.mk ((p.data ++ s.data).drop p.data.length) = s
  rw [List.drop_left]

/-- Variant of strDrop_append with the drop count given as a numeral. -/
theorem strDrop_append_len (p s : String) (n : Nat) (h : p.length = n) :
    strDrop (p ++ s) n = s := by
  subst h
  exact strDrop_append p s

/-- Decoding inverts encoding for any routing prefix. -/
theorem decodeToken_append (p s : String) : decodeToken p (p ++ s) = s :=
  strDrop_append p s

/-- A string starts with any string it extends on the right. -/
theorem strStartsWith_append (p s : String) : strStartsWith (p ++ s) p = true := by
  show p.data.isPrefixOf (p.data ++ s.data) = true
  rw [List.isPrefixOf_iff_prefix]
  exact List.prefix_append _ _

/-- isPrefixOf is decided by the first summand of an append when the
candidate prefix is no longer than that summand. -/
theorem isPrefixOf_append_left (p q s : List Char) (h : p.length ≤ q.length) :
    p.isPrefixOf (q ++ s) = p.isPrefixOf q := by
  induction p generalizing q with
  | nil => simp [List.isPrefixOf]
  | cons a as ih =>
    cases q with
    | nil => simp at h
    | cons b bs =>
      simp only [List.cons_append, List.isPrefixOf, List.append_eq]
      rw [ih bs (by simpa using h)]

/-- strStartsWith is decided by the first summand of an append when the
candidate prefix is no longer than that summand. -/
theorem strStartsWith_append_left (q p s : String) (h : q.length ≤ p.length) :
    strStartsWith (p ++ s) q = strStartsWith p q := by
  show q.data.isPrefixOf (p.data ++ s.data) = q.data.isPrefixOf p.data
  exact isPrefixOf_append_left q.data p.data s.data h

/-- An append whose first summand is already longer than a string q cannot
equal q. -/
theorem append_ne_short (p s q : String) (h : q.length < p.length) : p ++ s ≠ q := by
  intro he
  have h2 := congrArg String.length he
  rw [String.length_append] at h2
  omega

/-- Mapping a function of the element only over an enumerated list forgets
the indices. -/
theorem enumFrom_map_snd_comp {α β : Type} (g : α → β) (l : List α) (n : Nat) :
    (List.enumFrom n l).map (fun im => g im.2) = l.map g := by
  induction l generalizing n with
  | nil => rfl
  | cons a as ih => simp [List.enumFrom, ih]

/-- The skipped-nicknames computation, written as the spec words it: empty
on overwrite, otherwise the nicknames of the recorded entries (empty when
the record is absent). -/
theorem computeSkippedNicknames_eq (overwrite : Bool) (entries : Option (List ExistingValueEntry)) :
    computeSkippedNicknames overwrite entries =
      if overwrite then [] else (entries.getD []).map ExistingValueEntry.nickname := by
  cases overwrite <;> cases entries <;> simp [computeSkippedNicknames]

/-! The claim theorems. -/

/-- C3: for each of the four routing prefixes and every payload string,
decoding the token formed by prepending the prefix strips exactly that
prefix and returns the payload unmodified. -/
theorem token_codec_roundtrip (payload : String) :
    decodeToken CallbackPrefix.YES_NO (encodeToken CallbackPrefix.YES_NO payload) = payload ∧
    decodeToken CallbackPrefix.COLUMN (encodeToken CallbackPrefix.COLUMN payload) = payload ∧
    decodeToken CallbackPrefix.POLL_INTENT (encodeToken CallbackPrefix.POLL_INTENT payload) = payload ∧
    decodeToken CallbackPrefix.POLL_OPTION (encodeToken CallbackPrefix.POLL_OPTION payload) = payload :=
  ⟨decodeToken_append _ _, decodeToken_append _ _, decodeToken_append _ _, decodeToken_append _ _⟩

/-- C10: on the YES_NO sub-action playercount:no the handler sets the state
to awaiting_player_count, prompts for a manual count, and changes no other
session field; it runs for every session, with no precondition check and no
reset. -/
theorem playercount_no_prompts_manual_count (session : Session) (apiOk : Bool) :
    ynCallbackHandler session (CallbackPrefix.YES_NO ++ "playercount:no") apiOk =
      ({ session with state := SessionState.awaiting_player_count },
       [Effect.answerCallbackQuery,
        Effect.editMessageText "How many players attended the match?"]) := by
  rfl

/-- C2 (counterexample): presenting 2 candidate matches yields a keyboard
with exactly 2 interactive choices, not 2 + 1 — the disambiguation keyboard
carries no cancel button. -/
theorem columnSelection_two_candidates_not_three_choices :
    (columnSelectionKeyboard [{ column := "B", date := "1.1" }, { column := "C", date := "2.2" }]).length = 2 ∧
    (columnSelectionKeyboard [{ column := "B", date := "1.1" }, { column := "C", date := "2.2" }]).length ≠ 2 + 1 := by
  constructor
  · rfl
  · decide

/-- C2 (amended): the zero-candidate keyboard offers exactly 2 choices
(create the proposed column, cancel), the single-candidate keyboard exactly
2 choices (use it, create the next), and the disambiguation keyboard
exactly one numbered choice per candidate in the order supplied — N
choices for N candidates, with no cancel button. -/
theorem column_resolution_choice_counts (column currentColumn nextColumn : String)
    (ms : List ColumnMatch) :
    (newColumnChoiceKeyboard column).length = 2 ∧
    (columnConfirmationKeyboard currentColumn nextColumn).length = 2 ∧
    (columnSelectionKeyboard ms).length = ms.length ∧
    (columnSelectionKeyboard ms).map Button.callbackData =
      ms.map (fun m => CallbackPrefix.COLUMN ++ "select:" ++ m.column) := by
  refine ⟨rfl, rfl, ?_, ?_⟩
  · simp [columnSelectionKeyboard]
  · rw [columnSelectionKeyboard, List.map_map]
    exact enumFrom_map_snd_comp (fun m => CallbackPrefix.COLUMN ++ "select:" ++ m.column) ms 0

/-- C8 (counterexample): a session whose targetColumn is absent but whose
column field is set does not trigger the session-integrity error — the
handler proceeds and hands the write set to the sheet writer. -/
theorem overrideChoice_missing_targetColumn_still_writes :
    sessionColumnOnly.targetColumn = none ∧
    handleOverrideChoice sessionColumnOnly true true =
      (sessionColumnOnly,
       [Effect.editMessageText "✅ Will overwrite existing values",
        Effect.writeZeros [("alice", 2)] "B" true []]) := by
  constructor
  · rfl
  · rfl

/-- C8 (amended): when the effective column (session.column, or else
targetColumn) is absent or empty, or the nickname-row mapping is absent,
the override handler reports the session-data-lost error instructing the
user to restart, fully resets the session, and performs no write. -/
theorem overrideChoice_session_integrity_error (session : Session) (overwrite apiOk : Bool)
    (h : jsStrTruthy (jsOrStr session.column session.targetColumn) = false ∨
         session.nicknameRowsEntries = none) :
    handleOverrideChoice session overwrite apiOk =
      (initialSession,
       [Effect.replyError "❌ Error: session data lost. Start over with /update"]) := by
  simp only [handleOverrideChoice, if_pos h, replyErrorAndReset, resetSession]

/-- Witness for the amended C8 at the empty session. -/
theorem overrideChoice_session_integrity_error_witness :
    handleOverrideChoice initialSession true true =
      (initialSession,
       [Effect.replyError "❌ Error: session data lost. Start over with /update"]) :=
  overrideChoice_session_integrity_error initialSession true true (Or.inl rfl)

/-- C1: whenever the override handler reaches the write, the skipped list it
hands over is empty for overwrite true, and for overwrite false it is
exactly the nicknames recorded in existingValuesEntries, in order — empty
when that record is absent. -/
theorem overrideChoice_skipped_list (session : Session) (overwrite apiOk : Bool)
    (hc : jsStrTruthy (jsOrStr session.column session.targetColumn) = true)
    (hr : session.nicknameRowsEntries ≠ none) :
    skippedOf (handleOverrideChoice session overwrite apiOk).2 =
      some (if overwrite then []
            else (session.existingValuesEntries.getD []).map ExistingValueEntry.nickname) := by
  have hguard : ¬(jsStrTruthy (jsOrStr session.column session.targetColumn) = false ∨
      session.nicknameRowsEntries = none) := by
    push_neg
    exact ⟨by simp [hc], hr⟩
  rw [← computeSkippedNicknames_eq overwrite session.existingValuesEntries]
  simp only [handleOverrideChoice, if_neg hguard]
  cases apiOk <;> simp [skippedOf]

/-- Witness for C1 on the override-ready session with one conflict:
skipping keeps exactly that nickname in the skipped list. -/
theorem overrideChoice_skipped_list_witness :
    skippedOf (handleOverrideChoice sessionOverrideReady false true).2 = some ["alice"] :=
  overrideChoice_skipped_list sessionOverrideReady false true (by decide) (by decide)

/-- C4: poll-option validation proceeds in order — a payload that does not
parse as an integer is rejected with the generic invalid-option message
(whatever the poll fetch would return) and no session change; a parsed
index outside the valid range is rejected with the message naming the
range 1..options.length and no session change. -/
theorem pollOption_validation_order (session : Session) (payload : String)
    (fetchResult : Option PollData) (pd : PollData) (i : Int) :
    (parseIntJS payload = none →
      pollOptionCallbackHandler session (CallbackPrefix.POLL_OPTION ++ payload) fetchResult =
        (session, [Effect.answerCallbackQuery, Effect.editMessageText "❌ Invalid option."])) ∧
    (parseIntJS payload = some i → (i < 0 ∨ (pd.options.length : Int) ≤ i) →
      pollOptionCallbackHandler session (CallbackPrefix.POLL_OPTION ++ payload) (some pd) =
        (session,
         [Effect.answerCallbackQuery,
          Effect.editMessageText
            ("❌ Invalid option number. Please choose between 1 and "
              ++ toString pd.options.length ++ ".")])) := by
  constructor
  · intro h
    simp only [pollOptionCallbackHandler, decodeToken_append, h]
  · intro h hrange
    simp only [pollOptionCallbackHandler, decodeToken_append, h, if_pos hrange]

/-- Witness for C4: a non-numeric payload, and the payload 5 against a
two-option poll. -/
theorem pollOption_validation_order_witness :
    pollOptionCallbackHandler initialSession (CallbackPrefix.POLL_OPTION ++ "abc") (some pollDataAB) =
      (initialSession, [Effect.answerCallbackQuery, Effect.editMessageText "❌ Invalid option."]) ∧
    pollOptionCallbackHandler initialSession (CallbackPrefix.POLL_OPTION ++ "5") (some pollDataAB) =
      (initialSession,
       [Effect.answerCallbackQuery,
        Effect.editMessageText "❌ Invalid option number. Please choose between 1 and 2."]) :=
  ⟨(pollOption_validation_order initialSession "abc" (some pollDataAB) pollDataAB 0).1 (by decide),
   (pollOption_validation_order initialSession "5" (some pollDataAB) pollDataAB 5).2
     (by decide) (by decide)⟩

/-- C5: an in-range poll option whose voter set is empty (including an
absent votes entry) is rejected with the no-voters message and the session
is fully reset. -/
theorem pollOption_empty_voters_resets (session : Session) (payload : String)
    (pd : PollData) (i : Int)
    (hp : parseIntJS payload = some i) (h0 : 0 ≤ i) (hlt : i < (pd.options.length : Int))
    (hv : votesGet pd.votes i.toNat = []) :
    pollOptionCallbackHandler session (CallbackPrefix.POLL_OPTION ++ payload) (some pd) =
      (initialSession,
       [Effect.answerCallbackQuery, Effect.replyError "❌ No voters found for this option."]) := by
  have hnot : ¬(i < 0 ∨ (pd.options.length : Int) ≤ i) := by omega
  simp only [pollOptionCallbackHandler, decodeToken_append, hp, if_neg hnot, hv]
  simp [replyErrorAndReset, resetSession]

/-- Witness for C5: the one-option poll with no votes, selecting option
index 0 (presented as option 1). -/
theorem pollOption_empty_voters_resets_witness :
    pollOptionCallbackHandler initialSession (CallbackPrefix.POLL_OPTION ++ "0") (some pollDataA) =
      (initialSession,
       [Effect.answerCallbackQuery, Effect.replyError "❌ No voters found for this option."]) :=
  pollOption_empty_voters_resets initialSession "0" pollDataA 0
    (by decide) (by decide) (by decide) (by decide)

/-- C6: a successful selection (in-range index, non-empty voter set) sets
usernames to exactly the voter identities of the chosen option in their
collection order, clears pollId and pollQuestion, and enters the column
detection flow. -/
theorem pollOption_success_stores_usernames (session : Session) (payload : String)
    (pd : PollData) (i : Int)
    (hp : parseIntJS payload = some i) (h0 : 0 ≤ i) (hlt : i < (pd.options.length : Int))
    (hv : votesGet pd.votes i.toNat ≠ []) :
    pollOptionCallbackHandler session (CallbackPrefix.POLL_OPTION ++ payload) (some pd) =
      ({ session with usernames := some (votesGet pd.votes i.toNat),
                      pollId := none, pollQuestion := none },
       [Effect.answerCallbackQuery,
        Effect.editMessageText
          ("✅ Selected option: \"" ++ pd.options.getD i.toNat "" ++ "\"" ++ "\n"
            ++ "👥 Attending players: " ++ String.intercalate " " (votesGet pd.votes i.toNat)),
        Effect.startColumnDetectionFlow]) := by
  have hnot : ¬(i < 0 ∨ (pd.options.length : Int) ≤ i) := by omega
  have hlen : ¬((votesGet pd.votes i.toNat).length = 0) := by
    simpa [List.length_eq_zero] using hv
  simp only [pollOptionCallbackHandler, decodeToken_append, hp, if_neg hnot, if_neg hlen]

/-- Witness for C6: selecting option index 0 of the two-option poll yields
the attendee list alice, bob in collection order. -/
theorem pollOption_success_stores_usernames_witness :
    pollOptionCallbackHandler initialSession (CallbackPrefix.POLL_OPTION ++ "0") (some pollDataAB) =
      ({ initialSession with usernames := some ["alice", "bob"],
                             pollId := none, pollQuestion := none },
       [Effect.answerCallbackQuery,
        Effect.editMessageText "✅ Selected option: \"Team A\"\n👥 Attending players: alice bob",
        Effect.startColumnDetectionFlow]) :=
  pollOption_success_stores_usernames initialSession "0" pollDataAB 0
    (by decide) (by decide) (by decide) (by decide)

/-- C9: a YES_NO or COLUMN callback whose stripped payload matches no
recognized sub-action leaves the session untouched and produces nothing
beyond the button-press acknowledgement — a silent no-op. -/
theorem unrecognized_subaction_noop (session : Session) (payload : String) (apiOk : Bool) :
    (payload ≠ "playercount:yes" → payload ≠ "playercount:no" →
     payload ≠ "override:yes" → payload ≠ "override:no" →
      ynCallbackHandler session (CallbackPrefix.YES_NO ++ payload) apiOk =
        (session, [Effect.answerCallbackQuery])) ∧
    (strStartsWith payload "use:" = false → strStartsWith payload "new:" = false →
     strStartsWith payload "create:" = false → payload ≠ "cancel" →
     strStartsWith payload "select:" = false →
      columnCallbackHandler session (CallbackPrefix.COLUMN ++ payload) =
        (session, [Effect.answerCallbackQuery])) := by
  constructor
  · intro h1 h2 h3 h4
    simp only [ynCallbackHandler, decodeToken_append, if_neg h1, if_neg h2, if_neg h3, if_neg h4]
  · intro h1 h2 h3 h4 h5
    simp only [columnCallbackHandler, decodeToken_append, h1, h2, h3, h5, if_neg h4,
      Bool.false_eq_true, if_false]

/-- Witness for C9 at an unrecognized payload. -/
theorem unrecognized_subaction_noop_witness :
    ynCallbackHandler initialSession (CallbackPrefix.YES_NO ++ "zz") true =
      (initialSession, [Effect.answerCallbackQuery]) ∧
    columnCallbackHandler initialSession (CallbackPrefix.COLUMN ++ "zz") =
      (initialSession, [Effect.answerCallbackQuery]) :=
  ⟨(unrecognized_subaction_noop initialSession "zz" true).1
     (by decide) (by decide) (by decide) (by decide),
   (unrecognized_subaction_noop initialSession "zz" true).2
     (by decide) (by decide) (by decide) (by decide) (by decide)⟩

/-- C7 (counterexample): the use action makes a concrete column choice — it
stores targetColumn B — yet leaves a stale columnMatches record in place
rather than clearing it. -/
theorem column_use_leaves_columnMatches :
    ((columnCallbackHandler sessionWithMatches (CallbackPrefix.COLUMN ++ "use:B")).1).targetColumn
      = some "B" ∧
    ((columnCallbackHandler sessionWithMatches (CallbackPrefix.COLUMN ++ "use:B")).1).columnMatches
      = some [{ column := "B", date := "1.1" }] := by
  constructor
  · rfl
  · rfl

/-- C7 (amended): every concrete column choice writes the targetColumn and
isNewColumn pair, but only the select action also clears columnMatches; the
use, new and create actions leave columnMatches unchanged. -/
theorem column_choice_session_writes (session : Session) (column : String) :
    ((columnCallbackHandler session (CallbackPrefix.COLUMN ++ ("select:" ++ column))).1 =
      { session with targetColumn := some column, isNewColumn := some false,
                     columnMatches := none }) ∧
    ((columnCallbackHandler session (CallbackPrefix.COLUMN ++ ("use:" ++ column))).1 =
      { session with targetColumn := some column, isNewColumn := some false }) ∧
    ((columnCallbackHandler session (CallbackPrefix.COLUMN ++ ("new:" ++ column))).1 =
      { session with targetColumn := some column, isNewColumn := some true,
                     state := SessionState.awaiting_date_name }) ∧
    ((columnCallbackHandler session (CallbackPrefix.COLUMN ++ ("create:" ++ column))).1 =
      { session with targetColumn := some column, isNewColumn := some true,
                     state := SessionState.awaiting_date_name }) := by
  refine ⟨?_, ?_, ?_, ?_⟩
  · have h1 : strStartsWith ("select:" ++ column) "use:" = false := by
      rw [strStartsWith_append_left "use:" "select:" column (by decide)]
      decide
    have h2 : strStartsWith ("select:" ++ column) "new:" = false := by
      rw [strStartsWith_append_left "new:" "select:" column (by decide)]
      decide
    have h3 : strStartsWith ("select:" ++ column) "create:" = false := by
      rw [strStartsWith_append_left "create:" "select:" column (by decide)]
      decide
    have h4 : ("select:" ++ column) ≠ "cancel" := append_ne_short _ _ _ (by decide)
    have h5 : strStartsWith ("select:" ++ column) "select:" = true := strStartsWith_append _ _
    have h6 : strDrop ("select:" ++ column) 7 = column := strDrop_append_len _ _ 7 (by decide)
    simp only [columnCallbackHandler, decodeToken_append, h1, h2, h3, if_neg h4, h5, h6,
      Bool.false_eq_true, if_false, if_true]
  · have h1 : strStartsWith ("use:" ++ column) "use:" = true := strStartsWith_append _ _
    have h2 : strDrop ("use:" ++ column) 4 = column := strDrop_append_len _ _ 4 (by decide)
    simp only [columnCallbackHandler, decodeToken_append, h1, h2, if_true]
  · have h1 : strStartsWith ("new:" ++ column) "use:" = false := by
      rw [strStartsWith_append_left "use:" "new:" column (by decide)]
      decide
    have h2 : strStartsWith ("new:" ++ column) "new:" = true := strStartsWith_append _ _
    have h3 : strDrop ("new:" ++ column) 4 = column := strDrop_append_len _ _ 4 (by decide)
    simp only [columnCallbackHandler, decodeToken_append, h1, h2, h3,
      Bool.false_eq_true, if_false, if_true]
  · have h1 : strStartsWith ("create:" ++ column) "use:" = false := by
      rw [strStartsWith_append_left "use:" "create:" column (by decide)]
      decide
    have h2 : strStartsWith ("create:" ++ column) "new:" = false := by
      rw [strStartsWith_append_left "new:" "create:" column (by decide)]
      decide
    have h3 : strStartsWith ("create:" ++ column) "create:" = true := strStartsWith_append _ _
    have h4 : strDrop ("create:" ++ column) 7 = column := strDrop_append_len _ _ 7 (by decide)
    simp only [columnCallbackHandler, decodeToken_append, h1, h2, h3, h4,
      Bool.false_eq_true, if_false, if_true]

end PollSheets
